import Mathlib

/-!
Shallow embedding of the Google Earth Engine wildfire-variable extraction
script of this repository (src/environment-data.js), together with proofs
about the properties its specification states.

Modelling conventions:
* GEE server values are modelled by the inductive type Value; the GEE null
  sentinel is Value.null and numbers are exact rationals.
* A raster image (EEImage) is a finite association of band names to finite
  pixel maps; a geometry is the finite list of pixel ids its footprint
  covers at the fixed aggregation scale of the script.
* Timestamps are integer milliseconds; Date.advance adds a whole number of
  fixed-length day or year units (the script only ever advances by whole
  days and whole years).
* reduceRegion with a single-output reducer keys its result dictionary by
  band name; the combined mean/min/max reducer appends the suffixes
  _mean, _min and _max, as the script relies on (lines 68 and 112-114).
* The platform square root inside the band expression sqrt(u**2 + v**2)
  (line 93) is abstracted as the function field sqrtF of Env, and the
  pixel data of ee.Terrain.slope(dem) (line 22) as the field slopeData:
  both are computations performed by the Earth Engine platform, not by
  the script.
-/

namespace GEEFire

/-- A server-side value of the script: the GEE null sentinel, a number,
a date (integer milliseconds since the epoch) or a string. -/
inductive Value where
  | null : Value
  | num : ℚ → Value
  | date : Int → Value
  | str : String → Value
  deriving DecidableEq, Repr

/-- Lookup of a key in a property dictionary, first match wins. -/
def lookupStr (k : String) : List (String × Value) → Option Value
  | [] => none
  | (a, v) :: rest => if k = a then some v else lookupStr k rest

/-- Lookup of a pixel id in the pixel map of one band; a pixel id absent
from the map is a masked (invalid) pixel of that band. -/
def lookupPix (p : Int) : List (Int × ℚ) → Option ℚ
  | [] => none
  | (a, v) :: rest => if p = a then some v else lookupPix p rest

/-- ee.Dictionary.get, with the GEE null standing for an absent key. -/
def dictGet (d : List (String × Value)) (k : String) : Value :=
  (lookupStr k d).getD Value.null

/-- A raster image: an acquisition instant (system:time_start,
milliseconds) and its bands, each a finite pixel map. -/
structure EEImage where
  time : Int
  bands : List (String × List (Int × ℚ))
  deriving DecidableEq, Repr

/-- A feature: its property dictionary and the pixel footprint of its
geometry at the aggregation scale of the script. -/
structure EEFeature where
  props : List (String × Value)
  geom : List Int
  deriving DecidableEq, Repr

/-- One output record of the script, i.e. the property dictionary of the
feature built at lines 108-125. -/
abbrev Record := List (String × Value)

/-- feature.get, returning the GEE null for an absent property. -/
def propOf (f : EEFeature) (k : String) : Value :=
  (lookupStr k f.props).getD Value.null

/-- The values of one band under a geometry footprint: the valid pixel
values of the band at the pixels the geometry covers. -/
def regionVals (data : List (Int × ℚ)) (geometry : List Int) : List ℚ :=
  geometry.filterMap (fun p => lookupPix p data)

/-- Mean of a list of values, none when the list is empty. -/
def meanQ (l : List ℚ) : Option ℚ :=
  if l.isEmpty then none else some (l.sum / (l.length : ℚ))

/-- Minimum of a list of values, none when the list is empty. -/
def minQ : List ℚ → Option ℚ
  | [] => none
  | x :: xs => some (xs.foldl min x)

/-- Maximum of a list of values, none when the list is empty. -/
def maxQ : List ℚ → Option ℚ
  | [] => none
  | x :: xs => some (xs.foldl max x)

/-- An aggregation statistic as a dictionary value: the GEE null when no
valid pixel contributed. -/
def statValue : Option ℚ → Value
  | none => Value.null
  | some q => Value.num q

/-- reduceRegion with ee.Reducer.mean(): one result entry per band, keyed
by the band name (lines 78, 85, 96-98, 104-105). -/
def reduceRegionMean (img : EEImage) (geometry : List Int) : List (String × Value) :=
  img.bands.map (fun bd => (bd.1, statValue (meanQ (regionVals bd.2 geometry))))

/-- Helper for the combined mean/min/max reducer: three suffixed entries
per band. -/
def tripleStats (geometry : List Int) : List (String × List (Int × ℚ)) → List (String × Value)
  | [] => []
  | bd :: rest =>
    (bd.1 ++ "_mean", statValue (meanQ (regionVals bd.2 geometry))) ::
    (bd.1 ++ "_min", statValue (minQ (regionVals bd.2 geometry))) ::
    (bd.1 ++ "_max", statValue (maxQ (regionVals bd.2 geometry))) ::
    tripleStats geometry rest

/-- reduceRegion with ee.Reducer.mean().combine(min).combine(max) with
shared inputs (line 68): result keys are suffixed by reducer name. -/
def reduceRegionMeanMinMax (img : EEImage) (geometry : List Int) : List (String × Value) :=
  tripleStats geometry img.bands

/-- ee.Image.select with a single band name: keep only that band. -/
def selectBand (b : String) (img : EEImage) : EEImage :=
  ⟨img.time, img.bands.filter (fun bd => decide (bd.1 = b))⟩

/-- The pixel map of the band expression sqrt(u**2 + v**2) (line 93): a
pixel is valid when it is valid in both operand bands, and its value is
the platform square root sf of the sum of squares. -/
def exprPixels (sf : ℚ → ℚ) (du dv : List (Int × ℚ)) : List (Int × ℚ) :=
  du.filterMap (fun q => (lookupPix q.1 dv).map (fun vv => (q.1, sf (q.2 ^ 2 + vv ^ 2))))

/-- ee.Image.expression of sqrt(u**2 + v**2) over two one-band images
(lines 93-96): the output band keeps the name of the band of the first
operand image, which is what the script's .get relies on at line 96. -/
def expressionSqrtMag (sf : ℚ → ℚ) (u v : EEImage) : EEImage :=
  ⟨u.time,
   match u.bands, v.bands with
   | [(bu, du)], [(_, dv)] => [(bu, exprPixels sf du dv)]
   | _, _ => []⟩

/-- The image transform mapped over the temperature collection at lines
15-18: multiply every band value by 0.02 and subtract 273.15, keeping the
acquisition time (copyProperties of system:time_start). -/
def tempTransform (img : EEImage) : EEImage :=
  ⟨img.time, img.bands.map (fun bd => (bd.1, bd.2.map (fun q => (q.1, q.2 * 0.02 - 273.15))))⟩

/-- The calendar units the script advances dates by. -/
inductive TimeUnit where
  | day : TimeUnit
  | year : TimeUnit
  deriving DecidableEq, Repr

/-- Length of one unit in milliseconds (the model uses a fixed-length
365-day year for the population window). -/
def unitMs : TimeUnit → Int
  | TimeUnit.day => 86400000
  | TimeUnit.year => 31536000000

/-- ee.Date.advance (lines 52-55). -/
def advance (t : Int) (n : Int) (u : TimeUnit) : Int :=
  t + n * unitMs u

/-- ee.Date applied to the CONT_DATE property (line 51): parses a date
value, failing on anything else. -/
def eeDate : Value → Option Int
  | Value.date t => some t
  | _ => none

/-- Milliseconds per hour. -/
def msPerHour : Int := 3600000

/-- Hour of day of a timestamp, as used by ee.Filter.calendarRange on the
hour field (line 20). -/
def hourOf (t : Int) : Int :=
  Int.emod (Int.ediv t msPerHour) 24

/-- ee.ImageCollection.filterDate (lines 58-61): keeps the images whose
acquisition instant lies in the half-open window. -/
def filterDate (col : List EEImage) (startT endT : Int) : List EEImage :=
  col.filter (fun img => decide (startT ≤ img.time) && decide (img.time < endT))

/-- The external world of the script: the backing feature collections,
the raw image catalogs and the two platform computations the script
delegates (square root inside expressions, terrain slope). -/
structure Env where
  sqrtF : ℚ → ℚ
  fireCatalog : List EEFeature
  nonFireCatalog : List EEFeature
  temperatureRaw : List EEImage
  ndviCol : List EEImage
  era5Raw : List EEImage
  demData : List (Int × ℚ)
  slopeData : List (Int × ℚ)
  populationCol : List EEImage

/-- The prepared temperature collection (lines 13-18): select the
LST_Day_1km band, then map the Kelvin-to-Celsius transform. -/
def temperatureCol (env : Env) : List EEImage :=
  (env.temperatureRaw.map (selectBand "LST_Day_1km")).map tempTransform

/-- The prepared ERA5 collection (lines 19-20): the hourly catalog
pre-filtered by calendarRange to the images acquired at hour 14. -/
def ERA5Col (env : Env) : List EEImage :=
  env.era5Raw.filter (fun img => decide (hourOf img.time = 14))

/-- The static elevation image (line 21): NASADEM with the elevation band
selected. -/
def demImage (env : Env) : EEImage :=
  ⟨0, [("elevation", env.demData)]⟩

/-- The static slope image (line 22): ee.Terrain.slope of the DEM, whose
pixel data is computed by the platform. -/
def slopeImage (env : Env) : EEImage :=
  ⟨0, [("slope", env.slopeData)]⟩

/-- The nominal aggregation scale of every reduceRegion call (line 24).
In the model a geometry footprint is already expressed as the pixel list
sampled at this scale. -/
def scale : ℚ := 1000

/-- tempStats (lines 65-73): the dictionary of temperature statistics,
or all-null when no image lies in the window. -/
def tempStatsOf (env : Env) (geometry : List Int) (fireDate : Int) : List (String × Value) :=
  match (filterDate (temperatureCol env) (advance fireDate (-1) TimeUnit.day)
      (advance fireDate 1 TimeUnit.day)).head? with
  | some img => reduceRegionMeanMinMax img geometry
  | none => [("LST_Day_1km_mean", Value.null), ("LST_Day_1km_min", Value.null),
             ("LST_Day_1km_max", Value.null)]

/-- ndviMean (lines 76-80). -/
def ndviMeanOf (env : Env) (geometry : List Int) (fireDate : Int) : Value :=
  match (filterDate env.ndviCol (advance fireDate (-1) TimeUnit.day)
      (advance fireDate 1 TimeUnit.day)).head? with
  | some img => dictGet (reduceRegionMean img geometry) "NDVI"
  | none => Value.null

/-- popMean (lines 83-87): the population window is three years on each
side of the event date. -/
def popMeanOf (env : Env) (geometry : List Int) (fireDate : Int) : Value :=
  match (filterDate env.populationCol (advance fireDate (-3) TimeUnit.year)
      (advance fireDate 3 TimeUnit.year)).head? with
  | some img => dictGet (reduceRegionMean img geometry) "population_density"
  | none => Value.null

/-- era5Stats (lines 90-101): wind speed from the pixel-wise magnitude
expression, evaporation and precipitation from direct band means, or the
all-null dictionary when no ERA5 image lies in the window. -/
def era5StatsOf (env : Env) (geometry : List Int) (fireDate : Int) : List (String × Value) :=
  match (filterDate (ERA5Col env) (advance fireDate (-1) TimeUnit.day)
      (advance fireDate 1 TimeUnit.day)).head? with
  | some img =>
    [("wind", dictGet (reduceRegionMean
        (expressionSqrtMag env.sqrtF (selectBand "u_component_of_wind_10m" img)
          (selectBand "v_component_of_wind_10m" img)) geometry) "u_component_of_wind_10m"),
     ("evap", dictGet (reduceRegionMean (selectBand "total_evaporation_hourly" img) geometry)
        "total_evaporation_hourly"),
     ("precip", dictGet (reduceRegionMean (selectBand "total_precipitation_hourly" img) geometry)
        "total_precipitation_hourly")]
  | none => [("wind", Value.null), ("evap", Value.null), ("precip", Value.null)]

/-- slopeMean (line 104). -/
def slopeMeanOf (env : Env) (geometry : List Int) : Value :=
  dictGet (reduceRegionMean (slopeImage env) geometry) "slope"

/-- elevationMean (line 105). -/
def elevationMeanOf (env : Env) (geometry : List Int) : Value :=
  dictGet (reduceRegionMean (demImage env) geometry) "elevation"

/-- The output feature the script returns at lines 108-125, in the
property order of the source. -/
def buildRecord (env : Env) (feature : EEFeature) (geometry : List Int)
    (fireDate : Int) (fireStatus : ℚ) : Record :=
  [("ID", propOf feature "ID"),
   ("creationDate", Value.date (advance fireDate (-1) TimeUnit.day)),
   ("Lat", propOf feature "Lat"),
   ("Long", propOf feature "Long"),
   ("temperatureMean", dictGet (tempStatsOf env geometry fireDate) "LST_Day_1km_mean"),
   ("Min_Temperature", dictGet (tempStatsOf env geometry fireDate) "LST_Day_1km_min"),
   ("Max_Temperature", dictGet (tempStatsOf env geometry fireDate) "LST_Day_1km_max"),
   ("ndviMean", ndviMeanOf env geometry fireDate),
   ("slope", slopeMeanOf env geometry),
   ("elevation", elevationMeanOf env geometry),
   ("Dis_Road", propOf feature "D_Road"),
   ("Dis_Water", propOf feature "D_Water"),
   ("population", popMeanOf env geometry fireDate),
   ("windspeed", dictGet (era5StatsOf env geometry fireDate) "wind"),
   ("evaporation", dictGet (era5StatsOf env geometry fireDate) "evap"),
   ("precipitation", dictGet (era5StatsOf env geometry fireDate) "precip"),
   ("fire", Value.num fireStatus)]

/-- The per-event extraction routine extractData (lines 39-126).  The
geometry is fetched by filtering the backing collection on ID equality
and taking the first match (line 48); an empty match or an unparsable
CONT_DATE is a server error for this event's computation. -/
def extractData (env : Env) (feature : EEFeature) (featureCollection : List EEFeature)
    (fireStatus : ℚ) : Except String Record :=
  match (featureCollection.filter
      (fun f => decide (propOf f "ID" = propOf feature "ID"))).head? with
  | none => Except.error "Collection.first: empty collection"
  | some matched =>
    match eeDate (propOf feature "CONT_DATE") with
    | none => Except.error "Date: invalid date value"
    | some fireDate => Except.ok (buildRecord env feature matched.geom fireDate fireStatus)

/-- GEE FeatureCollection.map of a server algorithm: an error raised
while computing any element fails the whole collection computation, so
the export task of a collection with one failing element produces no
rows at all. -/
def collectionMap (f : EEFeature → Except String Record) :
    List EEFeature → Except String (List Record)
  | [] => Except.ok []
  | x :: xs =>
    match f x with
    | Except.error msg => Except.error msg
    | Except.ok r =>
      match collectionMap f xs with
      | Except.error msg => Except.error msg
      | Except.ok rs => Except.ok (r :: rs)

/-- True exactly when the batch computation failed. -/
def isErr : Except String (List Record) → Bool
  | Except.error _ => true
  | Except.ok _ => false

/-- The batch pattern of lines 134-141: map extractData with a fixed
backing collection and fire label over a collection of events. -/
def runBatch (env : Env) (events backing : List EEFeature) (fireStatus : ℚ) :
    Except String (List Record) :=
  collectionMap (fun feature => extractData env feature backing fireStatus) events

/-- The six input properties selected on both feature collections at
lines 7 and 9. -/
def inputFields : List String :=
  ["ID", "CONT_DATE", "Lat", "Long", "D_Road", "D_Water"]

/-- FeatureCollection.select of the input properties (geometry kept). -/
def selectProps (f : EEFeature) : EEFeature :=
  ⟨f.props.filter (fun kv => decide (kv.1 ∈ inputFields)), f.geom⟩

/-- The Fire input collection (lines 6-7). -/
def Fire (env : Env) : List EEFeature :=
  env.fireCatalog.map selectProps

/-- The NonFire input collection (lines 8-9). -/
def NonFire (env : Env) : List EEFeature :=
  env.nonFireCatalog.map selectProps

/-- FireVariables (lines 134-136): the fire batch, label 1. -/
def FireVariables (env : Env) : Except String (List Record) :=
  runBatch env (Fire env) (Fire env) 1

/-- NonFireVariables (lines 139-141): the non-fire batch, label 0. -/
def NonFireVariables (env : Env) : Except String (List Record) :=
  runBatch env (NonFire env) (NonFire env) 0

/-- The key list of every record built by the script, in the property
order of lines 108-125. -/
def recordKeys : List String :=
  ["ID", "creationDate", "Lat", "Long", "temperatureMean", "Min_Temperature",
   "Max_Temperature", "ndviMean", "slope", "elevation", "Dis_Road", "Dis_Water",
   "population", "windspeed", "evaporation", "precipitation", "fire"]

/-- The export column list of lines 145-149, in source order. -/
def selectors : List String :=
  ["ID", "creationDate", "Lat", "Long", "temperatureMean", "Min_Temperature",
   "Max_Temperature", "ndviMean", "slope", "elevation", "Dis_Water", "Dis_Road",
   "population", "windspeed", "evaporation", "precipitation", "fire"]

/-- Configuration of one Export.table.toDrive call. -/
structure ExportConfig where
  folder : String
  description : String
  fileFormat : String
  selectors : List String
  deriving DecidableEq, Repr

/-- The fire export task (lines 152-158). -/
def fireExport : ExportConfig :=
  ⟨"Fire", "Fire_Data_Corrected", "CSV", selectors⟩

/-- The non-fire export task (lines 160-166). -/
def nonFireExport : ExportConfig :=
  ⟨"Fire", "Non_Fire_Data_Corrected", "CSV", selectors⟩

/-! Concrete objects used to evaluate the definitions on closed inputs. -/

/-- An environment with empty catalogs. -/
def envEmpty : Env :=
  ⟨id, [], [], [], [], [], [], [], []⟩

/-- A well-formed event whose geometry footprint is the single pixel 1. -/
def wFeat : EEFeature :=
  ⟨[("ID", Value.str "A1"), ("CONT_DATE", Value.date 0), ("Lat", Value.num 7),
    ("Long", Value.num 8), ("D_Road", Value.num 3), ("D_Water", Value.num 4)], [1]⟩

/-- A valid event whose ID occurs in its backing collection. -/
def fGood : EEFeature :=
  ⟨[("ID", Value.str "G"), ("CONT_DATE", Value.date 0)], [10]⟩

/-- A malformed event: its ID matches no feature of the backing
collection used alongside it. -/
def fBad : EEFeature :=
  ⟨[("ID", Value.str "B"), ("CONT_DATE", Value.date 0)], [11]⟩

/-- An hourly image acquired at 14:00. -/
def e14img : EEImage := ⟨50400000, []⟩

/-- An hourly image acquired at 13:00. -/
def e13img : EEImage := ⟨46800000, []⟩

/-- An environment whose raw hourly catalog has a 13:00 and a 14:00
image. -/
def envH14 : Env := ⟨id, [], [], [], [], [e13img, e14img], [], [], []⟩

/-- An environment whose raw hourly catalog has only a 13:00 image. -/
def envH13 : Env := ⟨id, [], [], [], [], [e13img], [], [], []⟩

/-- First feature carrying the duplicated ID D. -/
def fDup1 : EEFeature := ⟨[("ID", Value.str "D"), ("CONT_DATE", Value.date 0)], [21]⟩

/-- Second feature carrying the duplicated ID D, with another geometry. -/
def fDup2 : EEFeature := ⟨[("ID", Value.str "D"), ("CONT_DATE", Value.date 5)], [22]⟩

/-- A feature whose ID matches nothing in the collection of the two
duplicated features. -/
def fLone : EEFeature := ⟨[("ID", Value.str "X"), ("CONT_DATE", Value.date 0)], [23]⟩

/-- A raw LST snapshot at the event date with the uniform raw value 15500
(310 Kelvin at the 0.02 scale) on pixel 1. -/
def rawTemp : EEImage := ⟨0, [("LST_Day_1km", [(1, 15500)])]⟩

/-- An environment whose temperature catalog holds only rawTemp. -/
def envT : Env := ⟨id, [], [], [rawTemp], [], [], [], [], []⟩

/-- An ERA5 image at 14:00 with wind components 3 and 4 on pixel 1. -/
def era5Img : EEImage :=
  ⟨50400000, [("u_component_of_wind_10m", [(1, 3)]), ("v_component_of_wind_10m", [(1, 4)])]⟩

/-- An environment whose raw hourly catalog holds only era5Img. -/
def envW : Env := ⟨id, [], [], [], [], [era5Img], [], [], []⟩

/-- An LST snapshot whose only valid pixel 99 lies outside the geometry
footprint of wFeat. -/
def rawTemp99 : EEImage := ⟨0, [("LST_Day_1km", [(99, 5)])]⟩

/-- An NDVI snapshot whose only valid pixel 99 lies outside the geometry
footprint of wFeat. -/
def ndvi99 : EEImage := ⟨0, [("NDVI", [(99, 1)])]⟩

/-- A population snapshot whose only valid pixel 99 lies outside the
geometry footprint of wFeat. -/
def pop99 : EEImage := ⟨0, [("population_density", [(99, 1)])]⟩

/-- An ERA5 image at 14:00 whose only valid pixel 99 lies outside the
geometry footprint of wFeat. -/
def era599 : EEImage :=
  ⟨50400000, [("u_component_of_wind_10m", [(99, 1)]), ("v_component_of_wind_10m", [(99, 1)]),
    ("total_evaporation_hourly", [(99, 1)]), ("total_precipitation_hourly", [(99, 1)])]⟩

/-- An environment where every source has a snapshot in the window of the
event date 0, but none covers the geometry footprint of wFeat. -/
def envGap : Env := ⟨id, [], [], [rawTemp99], [ndvi99], [era599], [], [], [pop99]⟩

/-! Helper lemmas about the embedding. -/

/-- Membership in a date-filtered collection is membership in the
collection together with the half-open window condition. -/
theorem mem_filterDate (col : List EEImage) (s e : Int) (img : EEImage) :
    img ∈ filterDate col s e ↔ img ∈ col ∧ (s ≤ img.time ∧ img.time < e) := by
  simp [filterDate, List.mem_filter]

/-- Looking up a pixel after mapping a function over the values of a band
is mapping the function over the lookup. -/
theorem lookupPix_mapVal (f : ℚ → ℚ) (data : List (Int × ℚ)) (p : Int) :
    lookupPix p (data.map (fun q => (q.1, f q.2))) = (lookupPix p data).map f := by
  induction data with
  | nil => rfl
  | cons a rest ih =>
    simp only [List.map_cons, lookupPix]
    by_cases hp : p = a.1
    · simp [hp]
    · simp [hp, ih]

/-- A list whose members all equal a constant sums to the constant times
the length. -/
theorem sum_const_list (l : List ℚ) (c : ℚ) (h : ∀ x ∈ l, x = c) :
    l.sum = c * (l.length : ℚ) := by
  induction l with
  | nil => simp
  | cons a t ih =>
    have ha : a = c := h a (List.mem_cons_self a t)
    have ht : t.sum = c * (t.length : ℚ) := ih (fun x hx => h x (List.mem_cons_of_mem a hx))
    simp only [List.sum_cons, ht, ha, List.length_cons]
    push_cast
    ring

/-- The mean of a nonempty constant list is that constant. -/
theorem meanQ_const (l : List ℚ) (c : ℚ) (hne : l ≠ []) (h : ∀ x ∈ l, x = c) :
    meanQ l = some c := by
  have hlen : (l.length : ℚ) ≠ 0 := by
    have : l.length ≠ 0 := by
      cases l with
      | nil => exact absurd rfl hne
      | cons a t => simp
    exact_mod_cast this
  have hempty : l.isEmpty = false := by
    cases l with
    | nil => exact absurd rfl hne
    | cons a t => rfl
  rw [meanQ, hempty, sum_const_list l c h]
  simp [mul_div_assoc, div_self hlen]

/-- Region values over a footprint on which every pixel is valid with the
same value form a nonempty constant list, so the mean is that value. -/
theorem meanQ_regionVals_const (data : List (Int × ℚ)) (geometry : List Int) (c : ℚ)
    (hne : geometry ≠ []) (h : ∀ p ∈ geometry, lookupPix p data = some c) :
    meanQ (regionVals data geometry) = some c := by
  apply meanQ_const
  · cases geometry with
    | nil => exact absurd rfl hne
    | cons p t =>
      have hp := h p (List.mem_cons_self p t)
      simp [regionVals, List.filterMap_cons, hp]
  · intro x hx
    obtain ⟨p, hp, hl⟩ := List.mem_filterMap.mp hx
    rw [h p hp] at hl
    exact (Option.some_inj.mp hl).symm

/-- Region values are empty when no geometry pixel is valid. -/
theorem regionVals_none (data : List (Int × ℚ)) (geometry : List Int)
    (h : ∀ p ∈ geometry, lookupPix p data = none) :
    regionVals data geometry = [] := by
  induction geometry with
  | nil => rfl
  | cons p t ih =>
    have hp := h p (List.mem_cons_self p t)
    simp only [regionVals, List.filterMap_cons, hp]
    exact ih (fun q hq => h q (List.mem_cons_of_mem p hq))

/-- ee.Dictionary.get of a dictionary all of whose entries are null is
null, whatever the key. -/
theorem dictGet_null (d : List (String × Value)) (k : String)
    (h : ∀ e ∈ d, e.2 = Value.null) : dictGet d k = Value.null := by
  induction d with
  | nil => rfl
  | cons a t ih =>
    simp only [dictGet, lookupStr]
    by_cases hk : k = a.1
    · simp [hk, h a (List.mem_cons_self a t)]
    · simp only [hk, if_false]
      exact ih (fun e he => h e (List.mem_cons_of_mem a he))

/-- Pixel lookup in the expression band: a pixel is valid exactly when it
is valid in both operands, with the magnitude value. -/
theorem lookupPix_exprPixels (sf : ℚ → ℚ) (du dv : List (Int × ℚ)) (p : Int) :
    lookupPix p (exprPixels sf du dv) =
      (lookupPix p du).bind (fun u => (lookupPix p dv).map (fun v => sf (u ^ 2 + v ^ 2))) := by
  induction du with
  | nil => rfl
  | cons a t ih =>
    simp only [exprPixels, List.filterMap_cons]
    cases hdv : lookupPix a.1 dv with
    | none =>
      rw [Option.map_none']
      by_cases hp : p = a.1
      · subst hp
        rw [show exprPixels sf t dv = t.filterMap
            (fun q => (lookupPix q.1 dv).map (fun vv => (q.1, sf (q.2 ^ 2 + vv ^ 2)))) from rfl]
          at ih
        rw [ih, lookupPix, if_pos rfl, hdv]
        cases lookupPix a.1 t <;> rfl
      · rw [show exprPixels sf t dv = t.filterMap
            (fun q => (lookupPix q.1 dv).map (fun vv => (q.1, sf (q.2 ^ 2 + vv ^ 2)))) from rfl]
          at ih
        rw [ih, lookupPix, if_neg hp]
    | some vv =>
      rw [Option.map_some']
      by_cases hp : p = a.1
      · rw [lookupPix, if_pos hp, lookupPix, if_pos hp, hp, hdv]
        rfl
      · rw [lookupPix, if_neg hp, lookupPix, if_neg hp]
        rw [show exprPixels sf t dv = t.filterMap
            (fun q => (lookupPix q.1 dv).map (fun vv => (q.1, sf (q.2 ^ 2 + vv ^ 2)))) from rfl]
          at ih
        exact ih

/-- Region values of the expression band, written through both operand
bands. -/
theorem regionVals_exprPixels (sf : ℚ → ℚ) (du dv : List (Int × ℚ)) (geometry : List Int) :
    regionVals (exprPixels sf du dv) geometry =
      geometry.filterMap (fun p =>
        (lookupPix p du).bind (fun u => (lookupPix p dv).map (fun v => sf (u ^ 2 + v ^ 2)))) := by
  simp only [regionVals, lookupPix_exprPixels]

/-- A batch whose event list contains an element on which the mapped
algorithm errors fails as a whole. -/
theorem collectionMap_isErr (f : EEFeature → Except String Record) (l : List EEFeature)
    (e : EEFeature) (he : e ∈ l) (msg : String) (hfe : f e = Except.error msg) :
    isErr (collectionMap f l) = true := by
  induction l with
  | nil => cases he
  | cons x xs ih =>
    rcases List.mem_cons.mp he with hx | hx
    · subst hx
      simp [collectionMap, hfe, isErr]
    · cases hfx : f x with
      | error m => simp [collectionMap, hfx, isErr]
      | ok r =>
        have hrec := ih hx
        cases hmap : collectionMap f xs with
        | error m => simp [collectionMap, hfx, hmap, isErr]
        | ok rs => rw [hmap, isErr] at hrec; cases hrec

/-- extractData succeeds when the geometry lookup and the date parse
succeed, and returns the assembled record. -/
theorem extractData_ok (env : Env) (feature : EEFeature) (fc : List EEFeature)
    (fireStatus : ℚ) (g : EEFeature) (T : Int)
    (hg : (fc.filter (fun f => decide (propOf f "ID" = propOf feature "ID"))).head? = some g)
    (hT : eeDate (propOf feature "CONT_DATE") = some T) :
    extractData env feature fc fireStatus =
      Except.ok (buildRecord env feature g.geom T fireStatus) := by
  unfold extractData
  rw [hg, hT]

/-- extractData errors when no feature of the backing collection matches
the event's ID. -/
theorem extractData_err (env : Env) (feature : EEFeature) (fc : List EEFeature)
    (fireStatus : ℚ)
    (hg : (fc.filter (fun f => decide (propOf f "ID" = propOf feature "ID"))).head? = none) :
    extractData env feature fc fireStatus =
      Except.error "Collection.first: empty collection" := by
  unfold extractData
  rw [hg]

/-- Key list of every assembled record. -/
theorem buildRecord_keys (env : Env) (feature : EEFeature) (geometry : List Int)
    (fireDate : Int) (fireStatus : ℚ) :
    (buildRecord env feature geometry fireDate fireStatus).map Prod.fst = recordKeys := rfl

/-- Record field creationDate. -/
theorem lookup_creationDate (env : Env) (feature : EEFeature) (geometry : List Int)
    (fireDate : Int) (fireStatus : ℚ) :
    lookupStr "creationDate" (buildRecord env feature geometry fireDate fireStatus) =
      some (Value.date (advance fireDate (-1) TimeUnit.day)) := rfl

/-- Record field temperatureMean. -/
theorem lookup_temperatureMean (env : Env) (feature : EEFeature) (geometry : List Int)
    (fireDate : Int) (fireStatus : ℚ) :
    lookupStr "temperatureMean" (buildRecord env feature geometry fireDate fireStatus) =
      some (dictGet (tempStatsOf env geometry fireDate) "LST_Day_1km_mean") := rfl

/-- Record field Min_Temperature. -/
theorem lookup_minTemperature (env : Env) (feature : EEFeature) (geometry : List Int)
    (fireDate : Int) (fireStatus : ℚ) :
    lookupStr "Min_Temperature" (buildRecord env feature geometry fireDate fireStatus) =
      some (dictGet (tempStatsOf env geometry fireDate) "LST_Day_1km_min") := rfl

/-- Record field Max_Temperature. -/
theorem lookup_maxTemperature (env : Env) (feature : EEFeature) (geometry : List Int)
    (fireDate : Int) (fireStatus : ℚ) :
    lookupStr "Max_Temperature" (buildRecord env feature geometry fireDate fireStatus) =
      some (dictGet (tempStatsOf env geometry fireDate) "LST_Day_1km_max") := rfl

/-- Record field ndviMean. -/
theorem lookup_ndviMean (env : Env) (feature : EEFeature) (geometry : List Int)
    (fireDate : Int) (fireStatus : ℚ) :
    lookupStr "ndviMean" (buildRecord env feature geometry fireDate fireStatus) =
      some (ndviMeanOf env geometry fireDate) := rfl

/-- Record field population. -/
theorem lookup_population (env : Env) (feature : EEFeature) (geometry : List Int)
    (fireDate : Int) (fireStatus : ℚ) :
    lookupStr "population" (buildRecord env feature geometry fireDate fireStatus) =
      some (popMeanOf env geometry fireDate) := rfl

/-- Record field windspeed. -/
theorem lookup_windspeed (env : Env) (feature : EEFeature) (geometry : List Int)
    (fireDate : Int) (fireStatus : ℚ) :
    lookupStr "windspeed" (buildRecord env feature geometry fireDate fireStatus) =
      some (dictGet (era5StatsOf env geometry fireDate) "wind") := rfl

/-- Record field evaporation. -/
theorem lookup_evaporation (env : Env) (feature : EEFeature) (geometry : List Int)
    (fireDate : Int) (fireStatus : ℚ) :
    lookupStr "evaporation" (buildRecord env feature geometry fireDate fireStatus) =
      some (dictGet (era5StatsOf env geometry fireDate) "evap") := rfl

/-- Record field precipitation. -/
theorem lookup_precipitation (env : Env) (feature : EEFeature) (geometry : List Int)
    (fireDate : Int) (fireStatus : ℚ) :
    lookupStr "precipitation" (buildRecord env feature geometry fireDate fireStatus) =
      some (dictGet (era5StatsOf env geometry fireDate) "precip") := rfl

/-- Record field fire. -/
theorem lookup_fire (env : Env) (feature : EEFeature) (geometry : List Int)
    (fireDate : Int) (fireStatus : ℚ) :
    lookupStr "fire" (buildRecord env feature geometry fireDate fireStatus) =
      some (Value.num fireStatus) := rfl

/-- Every entry of a mean reduction over bands without valid pixels is
null. -/
theorem reduceRegionMean_null (img : EEImage) (geometry : List Int)
    (h : ∀ bd ∈ img.bands, regionVals bd.2 geometry = []) :
    ∀ e ∈ reduceRegionMean img geometry, e.2 = Value.null := by
  intro e he
  obtain ⟨bd, hbd, rfl⟩ := List.mem_map.mp he
  rw [h bd hbd]
  rfl

/-- Every entry of the combined reduction over bands without valid pixels
is null. -/
theorem tripleStats_null (geometry : List Int) (bands : List (String × List (Int × ℚ)))
    (h : ∀ bd ∈ bands, regionVals bd.2 geometry = []) :
    ∀ e ∈ tripleStats geometry bands, e.2 = Value.null := by
  induction bands with
  | nil => intro e he; cases he
  | cons bd rest ih =>
    intro e he
    have hbd := h bd (List.mem_cons_self bd rest)
    simp only [tripleStats, hbd, List.mem_cons] at he
    rcases he with rfl | rfl | rfl | he
    · rfl
    · rfl
    · rfl
    · exact ih (fun b hb => h b (List.mem_cons_of_mem bd hb)) e he

/-- Every band of the expression image has no valid pixel under the
geometry when the first operand image has none. -/
theorem expr_bands_null (sf : ℚ → ℚ) (u v : EEImage) (geometry : List Int)
    (h : ∀ p ∈ geometry, ∀ bd ∈ u.bands, lookupPix p bd.2 = none) :
    ∀ bd ∈ (expressionSqrtMag sf u v).bands, regionVals bd.2 geometry = [] := by
  intro bd hbd
  rcases hu : u.bands with _ | ⟨⟨bu, du⟩, tu⟩
  · simp [expressionSqrtMag, hu] at hbd
  · rcases tu with _ | ⟨b2, tu2⟩
    · rcases hv : v.bands with _ | ⟨⟨bv, dv⟩, tv⟩
      · simp [expressionSqrtMag, hu, hv] at hbd
      · rcases tv with _ | ⟨b3, tv2⟩
        · simp [expressionSqrtMag, hu, hv] at hbd
          subst hbd
          apply regionVals_none
          intro p hp
          rw [lookupPix_exprPixels]
          have hdu : lookupPix p du = none := by
            have := h p hp (bu, du) (by rw [hu]; exact List.mem_cons_self _ _)
            exact this
          rw [hdu]
          rfl
        · simp [expressionSqrtMag, hu, hv] at hbd
    · simp [expressionSqrtMag, hu] at hbd

/-! Claim theorems. -/

/-- C1: for an event whose geometry lookup and date parse succeed, if the
resolved window of a time-indexed source (temperature, NDVI, population,
ERA5) contains zero snapshots, then every output field produced by that
source equals the null sentinel, the record still contains all seventeen
fields, and extraction returns a record instead of an error. -/
theorem c1_empty_window_sentinels (env : Env) (feature : EEFeature) (fc : List EEFeature)
    (fireStatus : ℚ) (g : EEFeature) (T : Int)
    (hg : (fc.filter (fun f => decide (propOf f "ID" = propOf feature "ID"))).head? = some g)
    (hT : eeDate (propOf feature "CONT_DATE") = some T) :
    extractData env feature fc fireStatus =
      Except.ok (buildRecord env feature g.geom T fireStatus) ∧
    (buildRecord env feature g.geom T fireStatus).map Prod.fst = recordKeys ∧
    (filterDate (temperatureCol env) (advance T (-1) TimeUnit.day)
        (advance T 1 TimeUnit.day) = [] →
      lookupStr "temperatureMean" (buildRecord env feature g.geom T fireStatus) =
          some Value.null ∧
      lookupStr "Min_Temperature" (buildRecord env feature g.geom T fireStatus) =
          some Value.null ∧
      lookupStr "Max_Temperature" (buildRecord env feature g.geom T fireStatus) =
          some Value.null) ∧
    (filterDate env.ndviCol (advance T (-1) TimeUnit.day) (advance T 1 TimeUnit.day) = [] →
      lookupStr "ndviMean" (buildRecord env feature g.geom T fireStatus) = some Value.null) ∧
    (filterDate env.populationCol (advance T (-3) TimeUnit.year)
        (advance T 3 TimeUnit.year) = [] →
      lookupStr "population" (buildRecord env feature g.geom T fireStatus) = some Value.null) ∧
    (filterDate (ERA5Col env) (advance T (-1) TimeUnit.day) (advance T 1 TimeUnit.day) = [] →
      lookupStr "windspeed" (buildRecord env feature g.geom T fireStatus) = some Value.null ∧
      lookupStr "evaporation" (buildRecord env feature g.geom T fireStatus) = some Value.null ∧
      lookupStr "precipitation" (buildRecord env feature g.geom T fireStatus) =
          some Value.null) := by
  refine ⟨extractData_ok env feature fc fireStatus g T hg hT,
    buildRecord_keys env feature g.geom T fireStatus, ?_, ?_, ?_, ?_⟩
  · intro hE
    have hh : (filterDate (temperatureCol env) (advance T (-1) TimeUnit.day)
        (advance T 1 TimeUnit.day)).head? = none := by rw [hE]; rfl
    refine ⟨?_, ?_, ?_⟩
    · rw [lookup_temperatureMean]
      simp [tempStatsOf, hh, dictGet, lookupStr]
    · rw [lookup_minTemperature]
      simp [tempStatsOf, hh, dictGet, lookupStr]
    · rw [lookup_maxTemperature]
      simp [tempStatsOf, hh, dictGet, lookupStr]
  · intro hE
    have hh : (filterDate env.ndviCol (advance T (-1) TimeUnit.day)
        (advance T 1 TimeUnit.day)).head? = none := by rw [hE]; rfl
    rw [lookup_ndviMean]
    simp [ndviMeanOf, hh]
  · intro hE
    have hh : (filterDate env.populationCol (advance T (-3) TimeUnit.year)
        (advance T 3 TimeUnit.year)).head? = none := by rw [hE]; rfl
    rw [lookup_population]
    simp [popMeanOf, hh]
  · intro hE
    have hh : (filterDate (ERA5Col env) (advance T (-1) TimeUnit.day)
        (advance T 1 TimeUnit.day)).head? = none := by rw [hE]; rfl
    refine ⟨?_, ?_, ?_⟩
    · rw [lookup_windspeed]
      simp [era5StatsOf, hh, dictGet, lookupStr]
    · rw [lookup_evaporation]
      simp [era5StatsOf, hh, dictGet, lookupStr]
    · rw [lookup_precipitation]
      simp [era5StatsOf, hh, dictGet, lookupStr]

/-- C8: for an event whose geometry lookup and date parse succeed, a
source whose located snapshot has no valid pixel under the event geometry
produces exactly the same null sentinel in each of its output fields as
the no-snapshot case, and extraction still returns a record. -/
theorem c8_no_valid_pixel_sentinels (env : Env) (feature : EEFeature) (fc : List EEFeature)
    (fireStatus : ℚ) (g : EEFeature) (T : Int)
    (hg : (fc.filter (fun f => decide (propOf f "ID" = propOf feature "ID"))).head? = some g)
    (hT : eeDate (propOf feature "CONT_DATE") = some T) :
    extractData env feature fc fireStatus =
      Except.ok (buildRecord env feature g.geom T fireStatus) ∧
    (∀ img, (filterDate (temperatureCol env) (advance T (-1) TimeUnit.day)
        (advance T 1 TimeUnit.day)).head? = some img →
      (∀ p ∈ g.geom, ∀ bd ∈ img.bands, lookupPix p bd.2 = none) →
      lookupStr "temperatureMean" (buildRecord env feature g.geom T fireStatus) =
          some Value.null ∧
      lookupStr "Min_Temperature" (buildRecord env feature g.geom T fireStatus) =
          some Value.null ∧
      lookupStr "Max_Temperature" (buildRecord env feature g.geom T fireStatus) =
          some Value.null) ∧
    (∀ img, (filterDate env.ndviCol (advance T (-1) TimeUnit.day)
        (advance T 1 TimeUnit.day)).head? = some img →
      (∀ p ∈ g.geom, ∀ bd ∈ img.bands, lookupPix p bd.2 = none) →
      lookupStr "ndviMean" (buildRecord env feature g.geom T fireStatus) = some Value.null) ∧
    (∀ img, (filterDate env.populationCol (advance T (-3) TimeUnit.year)
        (advance T 3 TimeUnit.year)).head? = some img →
      (∀ p ∈ g.geom, ∀ bd ∈ img.bands, lookupPix p bd.2 = none) →
      lookupStr "population" (buildRecord env feature g.geom T fireStatus) = some Value.null) ∧
    (∀ img, (filterDate (ERA5Col env) (advance T (-1) TimeUnit.day)
        (advance T 1 TimeUnit.day)).head? = some img →
      (∀ p ∈ g.geom, ∀ bd ∈ img.bands, lookupPix p bd.2 = none) →
      lookupStr "windspeed" (buildRecord env feature g.geom T fireStatus) = some Value.null ∧
      lookupStr "evaporation" (buildRecord env feature g.geom T fireStatus) = some Value.null ∧
      lookupStr "precipitation" (buildRecord env feature g.geom T fireStatus) =
          some Value.null) := by
  refine ⟨extractData_ok env feature fc fireStatus g T hg hT, ?_, ?_, ?_, ?_⟩
  · intro img himg hnp
    have hbands : ∀ bd ∈ img.bands, regionVals bd.2 g.geom = [] := fun bd hbd =>
      regionVals_none bd.2 g.geom (fun p hp => hnp p hp bd hbd)
    have hstats : ∀ e ∈ tripleStats g.geom img.bands, e.2 = Value.null :=
      tripleStats_null g.geom img.bands hbands
    refine ⟨?_, ?_, ?_⟩
    · rw [lookup_temperatureMean]
      simp only [tempStatsOf, himg]
      exact congrArg some (dictGet_null _ _ hstats)
    · rw [lookup_minTemperature]
      simp only [tempStatsOf, himg]
      exact congrArg some (dictGet_null _ _ hstats)
    · rw [lookup_maxTemperature]
      simp only [tempStatsOf, himg]
      exact congrArg some (dictGet_null _ _ hstats)
  · intro img himg hnp
    have hbands : ∀ bd ∈ img.bands, regionVals bd.2 g.geom = [] := fun bd hbd =>
      regionVals_none bd.2 g.geom (fun p hp => hnp p hp bd hbd)
    rw [lookup_ndviMean]
    simp only [ndviMeanOf, himg]
    rw [dictGet_null _ _ (reduceRegionMean_null img g.geom hbands)]
  · intro img himg hnp
    have hbands : ∀ bd ∈ img.bands, regionVals bd.2 g.geom = [] := fun bd hbd =>
      regionVals_none bd.2 g.geom (fun p hp => hnp p hp bd hbd)
    rw [lookup_population]
    simp only [popMeanOf, himg]
    rw [dictGet_null _ _ (reduceRegionMean_null img g.geom hbands)]
  · intro img himg hnp
    have hsub : ∀ (b : String), ∀ bd ∈ (selectBand b img).bands,
        regionVals bd.2 g.geom = [] := by
      intro b bd hbd
      have hmem : bd ∈ img.bands := (List.mem_filter.mp hbd).1
      exact regionVals_none bd.2 g.geom (fun p hp => hnp p hp bd hmem)
    have hwind : ∀ e ∈ reduceRegionMean
        (expressionSqrtMag env.sqrtF (selectBand "u_component_of_wind_10m" img)
          (selectBand "v_component_of_wind_10m" img)) g.geom, e.2 = Value.null := by
      apply reduceRegionMean_null
      apply expr_bands_null
      intro p hp bd hbd
      have hmem : bd ∈ img.bands := (List.mem_filter.mp hbd).1
      exact hnp p hp bd hmem
    refine ⟨?_, ?_, ?_⟩
    · rw [lookup_windspeed]
      simp only [era5StatsOf, himg]
      exact congrArg some (dictGet_null _ "u_component_of_wind_10m" hwind)
    · rw [lookup_evaporation]
      simp only [era5StatsOf, himg]
      exact congrArg some (dictGet_null _ "total_evaporation_hourly"
        (reduceRegionMean_null _ g.geom (hsub "total_evaporation_hourly")))
    · rw [lookup_precipitation]
      simp only [era5StatsOf, himg]
      exact congrArg some (dictGet_null _ "total_precipitation_hourly"
        (reduceRegionMean_null _ g.geom (hsub "total_precipitation_hourly")))

/-- C2: for every event timestamp T, the search window of the
temperature, NDVI and ERA5 sources is exactly the half-open interval from
T minus one day to T plus one day, the window of the population source is
exactly the half-open interval from T minus three years to T plus three
years, and the snapshot filter keeps a snapshot of the prepared
collection if and only if its acquisition instant lies in that half-open
interval. -/
theorem c2_half_open_windows (env : Env) (T : Int) (img : EEImage) :
    (img ∈ filterDate (temperatureCol env) (advance T (-1) TimeUnit.day)
        (advance T 1 TimeUnit.day) ↔
      img ∈ temperatureCol env ∧ T - 86400000 ≤ img.time ∧ img.time < T + 86400000) ∧
    (img ∈ filterDate env.ndviCol (advance T (-1) TimeUnit.day)
        (advance T 1 TimeUnit.day) ↔
      img ∈ env.ndviCol ∧ T - 86400000 ≤ img.time ∧ img.time < T + 86400000) ∧
    (img ∈ filterDate (ERA5Col env) (advance T (-1) TimeUnit.day)
        (advance T 1 TimeUnit.day) ↔
      img ∈ ERA5Col env ∧ T - 86400000 ≤ img.time ∧ img.time < T + 86400000) ∧
    (img ∈ filterDate env.populationCol (advance T (-3) TimeUnit.year)
        (advance T 3 TimeUnit.year) ↔
      img ∈ env.populationCol ∧ T - 94608000000 ≤ img.time ∧ img.time < T + 94608000000) := by
  refine ⟨?_, ?_, ?_, ?_⟩ <;>
  · rw [mem_filterDate]
    apply and_congr_right
    intro
    simp only [advance, unitMs]
    omega

/-- C3: every successfully processed event yields a record holding
exactly the seventeen defined fields, the export column order is exactly
the one the claim lists, and the fire and non-fire exports use the
identical schema. -/
theorem c3_schema_seventeen_columns (env : Env) (feature : EEFeature) (fc : List EEFeature)
    (fireStatus : ℚ) (rec : Record)
    (h : extractData env feature fc fireStatus = Except.ok rec) :
    rec.map Prod.fst = recordKeys ∧
    recordKeys.Perm selectors ∧
    selectors = ["ID", "creationDate", "Lat", "Long", "temperatureMean", "Min_Temperature",
      "Max_Temperature", "ndviMean", "slope", "elevation", "Dis_Water", "Dis_Road",
      "population", "windspeed", "evaporation", "precipitation", "fire"] ∧
    selectors.length = 17 ∧
    fireExport.selectors = selectors ∧ nonFireExport.selectors = selectors := by
  have hrec : rec.map Prod.fst = recordKeys := by
    unfold extractData at h
    cases hg : (fc.filter (fun f => decide (propOf f "ID" = propOf feature "ID"))).head? with
    | none =>
      rw [hg] at h
      simp at h
    | some g =>
      rw [hg] at h
      cases hT : eeDate (propOf feature "CONT_DATE") with
      | none =>
        rw [hT] at h
        simp at h
      | some T =>
        rw [hT] at h
        simp only [Except.ok.injEq] at h
        rw [← h]
        exact buildRecord_keys env feature g.geom T fireStatus
  exact ⟨hrec, by decide, rfl, by decide, rfl, rfl⟩

/-- C7: for every event with timestamp T whose geometry lookup and date
parse succeed, the creationDate field of the output record equals T minus
one day, the start of the one-day-lead window of the fast-cadence
sources. -/
theorem c7_creation_date_window_start (env : Env) (feature : EEFeature) (fc : List EEFeature)
    (fireStatus : ℚ) (g : EEFeature) (T : Int)
    (hg : (fc.filter (fun f => decide (propOf f "ID" = propOf feature "ID"))).head? = some g)
    (hT : eeDate (propOf feature "CONT_DATE") = some T) :
    extractData env feature fc fireStatus =
      Except.ok (buildRecord env feature g.geom T fireStatus) ∧
    lookupStr "creationDate" (buildRecord env feature g.geom T fireStatus) =
      some (Value.date (T - 86400000)) := by
  refine ⟨extractData_ok env feature fc fireStatus g T hg hT, ?_⟩
  rw [lookup_creationDate]
  have hadv : advance T (-1) TimeUnit.day = T - 86400000 := by
    show T + (-1) * 86400000 = T - 86400000
    ring
  rw [hadv]

/-- C9: the ERA5 collection is pre-filtered to acquisition hour 14, so a
located ERA5 snapshot always has hour 14, and when no image of the raw
hourly catalog inside the window has hour 14 the locator returns none,
even if the window contains images at other hours. -/
theorem c9_era5_hour_fourteen (env : Env) (s e : Int) :
    (∀ img : EEImage, (filterDate (ERA5Col env) s e).head? = some img →
      hourOf img.time = 14) ∧
    ((∀ img ∈ env.era5Raw, s ≤ img.time → img.time < e → hourOf img.time ≠ 14) →
      (filterDate (ERA5Col env) s e).head? = none) := by
  constructor
  · intro img h
    have hmem : img ∈ filterDate (ERA5Col env) s e := by
      cases hl : filterDate (ERA5Col env) s e with
      | nil => rw [hl] at h; cases h
      | cons a t =>
        rw [hl] at h
        have ha : a = img := by simpa using h
        rw [← ha]
        exact List.mem_cons_self a t
    have h1 := (mem_filterDate _ _ _ _).mp hmem
    have h2 := List.mem_filter.mp
      (show img ∈ env.era5Raw.filter (fun i => decide (hourOf i.time = 14)) from h1.1)
    exact of_decide_eq_true h2.2
  · intro hno
    have hnil : filterDate (ERA5Col env) s e = [] := by
      rw [List.eq_nil_iff_forall_not_mem]
      intro img hmem
      have h1 := (mem_filterDate _ _ _ _).mp hmem
      have h2 := List.mem_filter.mp
        (show img ∈ env.era5Raw.filter (fun i => decide (hourOf i.time = 14)) from h1.1)
      exact hno img h2.1 h1.2.1 h1.2.2 (of_decide_eq_true h2.2)
    rw [hnil]
    rfl

/-- C10: the event geometry is the geometry of the first feature of the
backing collection matching the event's ID, so two events sharing that ID
both silently receive the first matching feature's geometry, and an event
whose ID matches no feature makes extraction error instead of
substituting sentinels. -/
theorem c10_geometry_first_match (env : Env) (fc fc2 : List EEFeature) (fireStatus : ℚ)
    (l1 rest : List EEFeature) (f1 e1 e2 e3 : EEFeature) (T1 T2 : Int)
    (hfc : fc = l1 ++ f1 :: rest)
    (h1 : ∀ f ∈ l1, propOf f "ID" ≠ propOf e1 "ID")
    (h2 : propOf f1 "ID" = propOf e1 "ID")
    (h3 : propOf e2 "ID" = propOf e1 "ID")
    (hT1 : eeDate (propOf e1 "CONT_DATE") = some T1)
    (hT2 : eeDate (propOf e2 "CONT_DATE") = some T2)
    (hnone : (fc2.filter (fun f => decide (propOf f "ID" = propOf e3 "ID"))).head? = none) :
    extractData env e1 fc fireStatus = Except.ok (buildRecord env e1 f1.geom T1 fireStatus) ∧
    extractData env e2 fc fireStatus = Except.ok (buildRecord env e2 f1.geom T2 fireStatus) ∧
    extractData env e3 fc2 fireStatus = Except.error "Collection.first: empty collection" := by
  have hfilter1 : (fc.filter (fun f => decide (propOf f "ID" = propOf e1 "ID"))).head? =
      some f1 := by
    subst hfc
    rw [List.filter_append]
    have hl1 : l1.filter (fun f => decide (propOf f "ID" = propOf e1 "ID")) = [] := by
      rw [List.filter_eq_nil_iff]
      intro f hf
      simp [h1 f hf]
    have hcons : (f1 :: rest).filter (fun f => decide (propOf f "ID" = propOf e1 "ID")) =
        f1 :: rest.filter (fun f => decide (propOf f "ID" = propOf e1 "ID")) := by
      simp [List.filter_cons, h2]
    rw [hl1, List.nil_append, hcons]
    rfl
  have hfilter2 : (fc.filter (fun f => decide (propOf f "ID" = propOf e2 "ID"))).head? =
      some f1 := by
    simp only [h3]
    exact hfilter1
  exact ⟨extractData_ok env e1 fc fireStatus f1 T1 hfilter1 hT1,
    extractData_ok env e2 fc fireStatus f1 T2 hfilter2 hT2,
    extractData_err env e3 fc2 fireStatus hnone⟩

/-- C5: an event from the fire collection whose temperature window
locates a snapshot that covers its geometry with the uniform raw LST
value 15500 (i.e. 310 Kelvin at the 0.02 band scale) receives
temperatureMean 36.85 Celsius, the transform being multiplication by
0.02 followed by subtraction of 273.15, and its fire field is 1. -/
theorem c5_temperature_kelvin_to_celsius (env : Env) (feature : EEFeature)
    (fc : List EEFeature) (g : EEFeature) (T : Int) (raw : EEImage) (d : List (Int × ℚ))
    (hg : (fc.filter (fun f => decide (propOf f "ID" = propOf feature "ID"))).head? = some g)
    (hT : eeDate (propOf feature "CONT_DATE") = some T)
    (himg : (filterDate (temperatureCol env) (advance T (-1) TimeUnit.day)
        (advance T 1 TimeUnit.day)).head? =
      some (tempTransform (selectBand "LST_Day_1km" raw)))
    (hbands : raw.bands = [("LST_Day_1km", d)])
    (hne : g.geom ≠ [])
    (hval : ∀ p ∈ g.geom, lookupPix p d = some 15500) :
    extractData env feature fc 1 = Except.ok (buildRecord env feature g.geom T 1) ∧
    lookupStr "temperatureMean" (buildRecord env feature g.geom T 1) =
      some (Value.num (737 / 20)) ∧
    lookupStr "fire" (buildRecord env feature g.geom T 1) = some (Value.num 1) := by
  refine ⟨extractData_ok env feature fc 1 g T hg hT, ?_,
    lookup_fire env feature g.geom T 1⟩
  rw [lookup_temperatureMean]
  simp only [tempStatsOf, himg]
  have hsel : selectBand "LST_Day_1km" raw = EEImage.mk raw.time [("LST_Day_1km", d)] := by
    simp [selectBand, hbands]
  rw [hsel]
  have hmean : meanQ (regionVals (d.map (fun q => (q.1, q.2 * 0.02 - 273.15))) g.geom) =
      some (737 / 20) := by
    apply meanQ_regionVals_const _ _ _ hne
    intro p hp
    calc lookupPix p (d.map (fun q => (q.1, q.2 * 0.02 - 273.15)))
        = (lookupPix p d).map (fun x => x * 0.02 - 273.15) :=
          lookupPix_mapVal (fun x => x * 0.02 - 273.15) d p
      _ = some (737 / 20) := by rw [hval p hp]; norm_num
  have hkey : ("LST_Day_1km" ++ "_mean" : String) = "LST_Day_1km_mean" := rfl
  simp [tempTransform, reduceRegionMeanMinMax, tripleStats, hkey, dictGet, lookupStr, hmean,
    statValue]

/-- C6: for an event with a located ERA5 snapshot carrying the two
10-metre wind component bands, the windspeed field is the mean over the
geometry of the pixel-wise magnitude obtained by applying the platform
square root to the sum of the squares of the two components: the derived
expression is evaluated per pixel before the mean is taken. -/
theorem c6_windspeed_pixelwise_magnitude (env : Env) (feature : EEFeature)
    (fc : List EEFeature) (fireStatus : ℚ) (g : EEFeature) (T : Int) (img : EEImage)
    (du dv : List (Int × ℚ))
    (hg : (fc.filter (fun f => decide (propOf f "ID" = propOf feature "ID"))).head? = some g)
    (hT : eeDate (propOf feature "CONT_DATE") = some T)
    (himg : (filterDate (ERA5Col env) (advance T (-1) TimeUnit.day)
        (advance T 1 TimeUnit.day)).head? = some img)
    (hu : img.bands.filter (fun bd => decide (bd.1 = "u_component_of_wind_10m")) =
      [("u_component_of_wind_10m", du)])
    (hv : img.bands.filter (fun bd => decide (bd.1 = "v_component_of_wind_10m")) =
      [("v_component_of_wind_10m", dv)]) :
    extractData env feature fc fireStatus =
      Except.ok (buildRecord env feature g.geom T fireStatus) ∧
    lookupStr "windspeed" (buildRecord env feature g.geom T fireStatus) =
      some (statValue (meanQ (g.geom.filterMap (fun p =>
        (lookupPix p du).bind (fun u =>
          (lookupPix p dv).map (fun v => env.sqrtF (u ^ 2 + v ^ 2))))))) := by
  refine ⟨extractData_ok env feature fc fireStatus g T hg hT, ?_⟩
  rw [lookup_windspeed]
  simp only [era5StatsOf, himg]
  have hselu : selectBand "u_component_of_wind_10m" img =
      EEImage.mk img.time [("u_component_of_wind_10m", du)] := by
    simp [selectBand, hu]
  have hselv : selectBand "v_component_of_wind_10m" img =
      EEImage.mk img.time [("v_component_of_wind_10m", dv)] := by
    simp [selectBand, hv]
  rw [hselu, hselv]
  simp [expressionSqrtMag, reduceRegionMean, dictGet, lookupStr, regionVals_exprPixels]

/-- C4 is false on the code: with backing collection containing only the
valid event, the batch over both events errors as a whole instead of
producing the one record of the valid event. -/
theorem c4_batch_isolation_counterexample :
    (([fGood].filter (fun f => decide (propOf f "ID" = propOf fBad "ID"))).head? = none) ∧
    (([fGood].filter (fun f => decide (propOf f "ID" = propOf fGood "ID"))).head? =
      some fGood) ∧
    runBatch envEmpty [fGood, fBad] [fGood] 1 =
      Except.error "Collection.first: empty collection" ∧
    runBatch envEmpty [fGood] [fGood] 1 =
      Except.ok [buildRecord envEmpty fGood [10] 0 1] := by
  exact ⟨rfl, rfl, rfl, rfl⟩

/-- C4 amended: a batch containing an event whose ID matches no feature
of the backing collection fails as a whole (the malformed event's error
propagates through the collection map), producing no records at all. -/
theorem c4_batch_failure_propagates (env : Env) (events backing : List EEFeature)
    (fireStatus : ℚ) (e : EEFeature)
    (he : e ∈ events)
    (herr : (backing.filter (fun f => decide (propOf f "ID" = propOf e "ID"))).head? = none) :
    isErr (runBatch env events backing fireStatus) = true :=
  collectionMap_isErr _ events e he _ (extractData_err env e backing fireStatus herr)

/-! Witnesses: closed instances of the claim theorems. -/

/-- Witness for C1: concrete event, empty catalogs, all sentinel
fields observed. -/
theorem c1_empty_window_sentinels_witness :
    extractData envEmpty wFeat [wFeat] 1 =
      Except.ok (buildRecord envEmpty wFeat wFeat.geom 0 1) ∧
    (buildRecord envEmpty wFeat wFeat.geom 0 1).map Prod.fst = recordKeys ∧
    lookupStr "temperatureMean" (buildRecord envEmpty wFeat wFeat.geom 0 1) = some Value.null ∧
    lookupStr "Min_Temperature" (buildRecord envEmpty wFeat wFeat.geom 0 1) = some Value.null ∧
    lookupStr "Max_Temperature" (buildRecord envEmpty wFeat wFeat.geom 0 1) = some Value.null ∧
    lookupStr "ndviMean" (buildRecord envEmpty wFeat wFeat.geom 0 1) = some Value.null ∧
    lookupStr "population" (buildRecord envEmpty wFeat wFeat.geom 0 1) = some Value.null ∧
    lookupStr "windspeed" (buildRecord envEmpty wFeat wFeat.geom 0 1) = some Value.null ∧
    lookupStr "evaporation" (buildRecord envEmpty wFeat wFeat.geom 0 1) = some Value.null ∧
    lookupStr "precipitation" (buildRecord envEmpty wFeat wFeat.geom 0 1) = some Value.null := by
  obtain ⟨h1, h2, h3, h4, h5, h6⟩ :=
    c1_empty_window_sentinels envEmpty wFeat [wFeat] 1 wFeat 0 (by decide) (by decide)
  obtain ⟨t1, t2, t3⟩ := h3 (by decide)
  obtain ⟨w1, w2, w3⟩ := h6 (by decide)
  exact ⟨h1, h2, t1, t2, t3, h4 (by decide), h5 (by decide), w1, w2, w3⟩

/-- Witness for C3: concrete event, schema facts observed. -/
theorem c3_schema_seventeen_columns_witness :
    (buildRecord envEmpty wFeat wFeat.geom 0 1).map Prod.fst = recordKeys ∧
    recordKeys.Perm selectors ∧
    selectors = ["ID", "creationDate", "Lat", "Long", "temperatureMean", "Min_Temperature",
      "Max_Temperature", "ndviMean", "slope", "elevation", "Dis_Water", "Dis_Road",
      "population", "windspeed", "evaporation", "precipitation", "fire"] ∧
    selectors.length = 17 ∧
    fireExport.selectors = selectors ∧ nonFireExport.selectors = selectors :=
  c3_schema_seventeen_columns envEmpty wFeat [wFeat] 1
    (buildRecord envEmpty wFeat wFeat.geom 0 1) rfl

/-- Witness for C4 amended: the concrete two-event batch with one
malformed event fails as a whole. -/
theorem c4_batch_failure_propagates_witness :
    isErr (runBatch envEmpty [fGood, fBad] [fGood] 1) = true :=
  c4_batch_failure_propagates envEmpty [fGood, fBad] [fGood] 1 fBad (by decide) rfl

/-- Witness for C5: concrete 310-Kelvin snapshot, Celsius mean and fire
label observed. -/
theorem c5_temperature_kelvin_to_celsius_witness :
    extractData envT wFeat [wFeat] 1 = Except.ok (buildRecord envT wFeat wFeat.geom 0 1) ∧
    lookupStr "temperatureMean" (buildRecord envT wFeat wFeat.geom 0 1) =
      some (Value.num (737 / 20)) ∧
    lookupStr "fire" (buildRecord envT wFeat wFeat.geom 0 1) = some (Value.num 1) :=
  c5_temperature_kelvin_to_celsius envT wFeat [wFeat] wFeat 0 rawTemp [(1, 15500)]
    rfl rfl rfl rfl (by decide) (by decide)

/-- Witness for C6: concrete wind components 3 and 4 on one pixel. -/
theorem c6_windspeed_pixelwise_magnitude_witness :
    extractData envW wFeat [wFeat] 1 = Except.ok (buildRecord envW wFeat wFeat.geom 0 1) ∧
    lookupStr "windspeed" (buildRecord envW wFeat wFeat.geom 0 1) =
      some (statValue (meanQ (wFeat.geom.filterMap (fun p =>
        (lookupPix p [(1, 3)]).bind (fun u =>
          (lookupPix p [(1, 4)]).map (fun v => envW.sqrtF (u ^ 2 + v ^ 2))))))) :=
  c6_windspeed_pixelwise_magnitude envW wFeat [wFeat] 1 wFeat 0 era5Img [(1, 3)] [(1, 4)]
    rfl rfl (by decide) (by decide) (by decide)

/-- Witness for C7: concrete event at date 0, creationDate one day
earlier. -/
theorem c7_creation_date_window_start_witness :
    extractData envEmpty wFeat [wFeat] 1 =
      Except.ok (buildRecord envEmpty wFeat wFeat.geom 0 1) ∧
    lookupStr "creationDate" (buildRecord envEmpty wFeat wFeat.geom 0 1) =
      some (Value.date (0 - 86400000)) :=
  c7_creation_date_window_start envEmpty wFeat [wFeat] 1 wFeat 0 rfl rfl

/-- Witness for C8: snapshots exist for all four sources but none covers
the geometry; all fields are the null sentinel. -/
theorem c8_no_valid_pixel_sentinels_witness :
    extractData envGap wFeat [wFeat] 1 =
      Except.ok (buildRecord envGap wFeat wFeat.geom 0 1) ∧
    lookupStr "temperatureMean" (buildRecord envGap wFeat wFeat.geom 0 1) = some Value.null ∧
    lookupStr "Min_Temperature" (buildRecord envGap wFeat wFeat.geom 0 1) = some Value.null ∧
    lookupStr "Max_Temperature" (buildRecord envGap wFeat wFeat.geom 0 1) = some Value.null ∧
    lookupStr "ndviMean" (buildRecord envGap wFeat wFeat.geom 0 1) = some Value.null ∧
    lookupStr "population" (buildRecord envGap wFeat wFeat.geom 0 1) = some Value.null ∧
    lookupStr "windspeed" (buildRecord envGap wFeat wFeat.geom 0 1) = some Value.null ∧
    lookupStr "evaporation" (buildRecord envGap wFeat wFeat.geom 0 1) = some Value.null ∧
    lookupStr "precipitation" (buildRecord envGap wFeat wFeat.geom 0 1) = some Value.null := by
  obtain ⟨h1, ht, hn, hp, he⟩ :=
    c8_no_valid_pixel_sentinels envGap wFeat [wFeat] 1 wFeat 0 (by decide) rfl
  obtain ⟨t1, t2, t3⟩ := ht (tempTransform (selectBand "LST_Day_1km" rawTemp99))
    rfl (by decide)
  obtain ⟨w1, w2, w3⟩ := he era599 (by decide) (by decide)
  exact ⟨h1, t1, t2, t3, hn ndvi99 (by decide) (by decide),
    hp pop99 (by decide) (by decide), w1, w2, w3⟩

/-- Witness for C9: a 14:00 image is located, and a window holding only a
13:00 image locates nothing. -/
theorem c9_era5_hour_fourteen_witness :
    hourOf e14img.time = 14 ∧ (filterDate (ERA5Col envH13) 0 86400000).head? = none :=
  ⟨(c9_era5_hour_fourteen envH14 0 86400000).1 e14img (by decide),
   (c9_era5_hour_fourteen envH13 0 86400000).2 (by decide)⟩

/-- Witness for C10: two features share the ID D; both events receive
the first feature's geometry, and an unmatched event errors. -/
theorem c10_geometry_first_match_witness :
    extractData envEmpty fDup1 [fDup1, fDup2] 1 =
      Except.ok (buildRecord envEmpty fDup1 fDup1.geom 0 1) ∧
    extractData envEmpty fDup2 [fDup1, fDup2] 1 =
      Except.ok (buildRecord envEmpty fDup2 fDup1.geom 5 1) ∧
    extractData envEmpty fLone [fDup1, fDup2] 1 =
      Except.error "Collection.first: empty collection" :=
  c10_geometry_first_match envEmpty [fDup1, fDup2] [fDup1, fDup2] 1 [] [fDup2]
    fDup1 fDup1 fDup2 fLone 0 5 rfl (by decide) rfl rfl rfl rfl (by decide)

end GEEFire
